import Mathlib

/-!
Verification of the help-ticket core of server/chat-plugins/helptickets.ts:
the ticket state machine (claim queue, timing counters), close and statistics
finalization, the escalation-timer subsystem and the persisted-table load sweep.
All definitions are shallow embeddings of the TypeScript source; timestamps are
integers (milliseconds), JS truthiness on strings and numbers is made explicit.
-/

namespace HelpTickets

/-- JS toID of the lib: lowercase the text and keep only ASCII letters and digits;
null maps to the empty string (handled at call sites via toIDOpt). -/
def toID (s : String) : String :=
  String.mk ((s.data.map Char.toLower).filter (fun c => c.isLower || c.isDigit))

/-- toID applied to a nullable string, as the source does on ticket.claimed:
toID(null) is the empty string. -/
def toIDOpt : Option String → String
  | none => ""
  | some c => toID c

/-- JS truthiness of a nullable string: null and the empty string are falsy. -/
def jsFalsyStr : Option String → Bool
  | none => true
  | some s => s == ""

/-- A connected user as the plugin sees it: stable id, display name, staff flag,
and whether the user has chosen a name. -/
structure User where
  id : String
  name : String
  isStaff : Bool
  named : Bool
deriving Repr, DecidableEq

/-- The persisted ticket record (interface TicketState in the source).
The source field named open is called isOpen here because open is a Lean
keyword, and the field named type is called ty. -/
structure TicketState where
  creator : String
  userid : String
  isOpen : Bool
  active : Bool
  ty : String
  created : Int
  claimed : Option String
  ip : String
  needsDelayWarning : Bool := false
  offline : Bool := false
deriving Repr, DecidableEq

/-- type TicketResult of the source. -/
inductive TicketResult where
  | approved | valid | assisted | denied | invalid | unassisted | ticketban | deleted
deriving Repr, DecidableEq

/-- The resolution classification computed at close. -/
inductive Resolution where
  | unknown | dead | unresolved | resolved
deriving Repr, DecidableEq

/-- The close outcome: a boolean, or the literal ticketban or deleted marker. -/
inductive CloseResult where
  | bool (b : Bool)
  | ticketban
  | deleted
deriving Repr, DecidableEq

/-- One record of the statistics log, in the field order of the TSV line:
ticketType, totalTime, timeToFirstClaim, inactiveTime, resolution, result,
comma-joined staff userids. -/
structure StatsRecord where
  ty : String
  totalTime : Int
  firstClaimWait : Int
  unclaimedTime : Int
  resolution : Resolution
  result : TicketResult
  staff : String
deriving Repr, DecidableEq

/-- In-memory state of class HelpTicket, together with the player table the
class inherits from the room game base class, modelled as the list of player
ids in insertion order. -/
structure HelpTicket where
  ticket : TicketState
  claimQueue : List String
  involvedStaff : List String
  createTime : Int
  activationTime : Int
  emptyRoom : Bool
  firstClaimTime : Int
  unclaimedTime : Int
  lastUnclaimedStart : Int
  closeTime : Int
  resolution : Resolution
  result : Option TicketResult
  players : List String
deriving Repr, DecidableEq

/-- The HelpTicket constructor: stats counters are seeded from whether the
ticket is already active. -/
def HelpTicket.new (ticket : TicketState) (now : Int) : HelpTicket where
  ticket := ticket
  claimQueue := []
  involvedStaff := []
  createTime := now
  activationTime := if ticket.active then now else 0
  emptyRoom := false
  firstClaimTime := 0
  unclaimedTime := 0
  lastUnclaimedStart := if ticket.active then now else 0
  closeTime := 0
  resolution := .unknown
  result := none
  players := []

/-- JS Set.add on a set modelled as an insertion-ordered duplicate-free list. -/
def addToSet (s : List String) (x : String) : List String :=
  if s.contains x then s else s ++ [x]

/-- The user filter of onJoin at first claim: keeps the non-staff users in the
room (plus the ticket creator even if staff), named users only. -/
def ticketRoomUserFilter (t : TicketState) (u : User) : Bool :=
  !((u.isStaff && u.id != t.userid) || !u.named)

/-- HelpTicket.onJoin. roomUsers is the user list of the room at the time of
the join (the joining user included, as the room registers the user before
dispatching onJoin). A non-staff joiner (or the requester even if staff)
becomes a player and clears the offline flag; a staff joiner claims an
unclaimed ticket, recording first-claim data and freezing the unclaimed clock
if the ticket is active, and is queued otherwise. -/
def HelpTicket.onJoin (g : HelpTicket) (u : User) (roomUsers : List User) (now : Int) :
    HelpTicket :=
  if !g.ticket.isOpen then g
  else if !u.isStaff || u.id == g.ticket.userid then
    -- the source clears emptyRoom only when it is set, which is the same as
    -- unconditionally setting it to false
    { g with emptyRoom := false,
             players := g.players ++ [u.id],
             ticket := { g.ticket with offline := false } }
  else if jsFalsyStr g.ticket.claimed then
    let g1 := { g with ticket := { g.ticket with claimed := some u.name } }
    let g2 :=
      if g1.firstClaimTime == 0 then
        { g1 with firstClaimTime := now,
                  emptyRoom :=
                    if (roomUsers.filter (ticketRoomUserFilter g1.ticket)).length == 0 then true
                    else g1.emptyRoom }
      else g1
    if g2.ticket.active then
      { g2 with unclaimedTime := g2.unclaimedTime + (now - g2.lastUnclaimedStart),
                lastUnclaimedStart := 0 }
    else g2
  else { g with claimQueue := g.claimQueue ++ [u.name] }

/-- Splice of the first claim-queue entry whose toID is the given id
(claimQueue.map(toID).indexOf followed by splice in the source). -/
def removeFirstByID (q : List String) (i : String) : List String :=
  match q with
  | [] => []
  | n :: rest => if toID n == i then rest else n :: removeFirstByID rest i

/-- HelpTicket.onLeave. A leaving player is removed and marks the ticket
offline; otherwise, on an open ticket, the leaving claimant promotes the queue
head (a falsy shifted value becomes null) or unclaims and starts a new
unclaimed interval, and a queued staff member is spliced out of the queue. -/
def HelpTicket.onLeave (g : HelpTicket) (u : User) (oldUserid : Option String) (now : Int) :
    HelpTicket :=
  let key := match oldUserid with
    | some o => if o == "" then u.id else o
    | none => u.id
  if g.players.contains key then
    { g with players := g.players.filter (fun p => p != key),
             ticket := { g.ticket with offline := true } }
  else if !g.ticket.isOpen then g
  else if toIDOpt g.ticket.claimed == u.id then
    match g.claimQueue with
    | next :: rest =>
      { g with ticket := { g.ticket with claimed := if next == "" then none else some next },
               claimQueue := rest }
    | [] =>
      { g with ticket := { g.ticket with claimed := none },
               lastUnclaimedStart := now }
  else { g with claimQueue := removeFirstByID g.claimQueue u.id }

/-- The denylist of low-content greetings of onLogMessage. -/
def blockedMessages : List String :=
  ["hi", "hello", "hullo", "hey", "yo", "ok",
   "hesrude", "shesrude", "hesinappropriate", "shesinappropriate", "heswore", "sheswore",
   "help", "yes"]

/-- HelpTicket.onLogMessage: staff messages record involvement; on an inactive
ticket, a blocked greeting from the requester side is intercepted, any other
requester-side message activates the ticket and, if unclaimed, starts the
unclaimed clock. -/
def HelpTicket.onLogMessage (g : HelpTicket) (message : String) (u : User) (now : Int) :
    HelpTicket :=
  if !g.ticket.isOpen then g
  else
    let inv2 := if u.isStaff && g.ticket.userid != u.id then addToSet g.involvedStaff u.id
                else g.involvedStaff
    let g2 := { g with involvedStaff := inv2 }
    if g2.ticket.active then g2
    else if (!u.isStaff || g2.ticket.userid == u.id)
            && blockedMessages.contains (toID message) then g2
    else if (!u.isStaff || g2.ticket.userid == u.id) && !g2.ticket.active then
      { g2 with ticket := { g2.ticket with active := true, needsDelayWarning := true },
                activationTime := now,
                lastUnclaimedStart := if jsFalsyStr g2.ticket.claimed then now
                                      else g2.lastUnclaimedStart }
    else g2

/-- The per-type mapping of a boolean close outcome to the public result. -/
def typeResult (ty : String) (b : Bool) : TicketResult :=
  if ty == "Appeal" || ty == "IP-Appeal" || ty == "ISP-Appeal" then
    if b then .approved else .denied
  else if ty == "PM Harassment" || ty == "Battle Harassment" ||
          ty == "Inappropriate Username" || ty == "Inappropriate Pokemon Nicknames" then
    if b then .valid else .invalid
  else
    if b then .assisted else .unassisted

/-- HelpTicket.writeStats: stamps closeTime, charges a still-open unclaimed
interval, classifies resolution and result, computes the first-claim wait and
the staff field (both zero or empty when the ticket never activated), and
emits the statistics record. -/
def HelpTicket.writeStats (g : HelpTicket) (result : CloseResult) (now : Int) :
    HelpTicket × StatsRecord :=
  let closeTime := now
  let unclaimedTime :=
    if g.lastUnclaimedStart != 0 then g.unclaimedTime + (closeTime - g.lastUnclaimedStart)
    else g.unclaimedTime
  let resolution :=
    if !g.ticket.active then Resolution.dead
    else if g.firstClaimTime == 0 || g.emptyRoom then Resolution.unresolved
    else Resolution.resolved
  let res : TicketResult :=
    match result with
    | .bool b => typeResult g.ticket.ty b
    | .ticketban => .ticketban
    | .deleted => .deleted
  let firstClaimWait :=
    if g.activationTime != 0 then
      (if g.firstClaimTime != 0 then g.firstClaimTime else closeTime) - g.activationTime
    else 0
  let staffStr :=
    if g.activationTime != 0 then String.intercalate "," g.involvedStaff else ""
  ({ g with closeTime := closeTime, unclaimedTime := unclaimedTime,
            resolution := resolution, result := some res },
   { ty := g.ticket.ty, totalTime := closeTime - g.createTime,
     firstClaimWait := firstClaimWait, unclaimedTime := unclaimedTime,
     resolution := resolution, result := res, staff := staffStr })

/-- The identity used to backfill an empty involvedStaff set at close: the
closing staff member when staff and distinct from the requester, otherwise
toID of the current (last) claimant. -/
def backfillID (g : HelpTicket) (staff : Option User) : String :=
  match staff with
  | some s => if s.isStaff && s.id != g.ticket.userid then s.id else toIDOpt g.ticket.claimed
  | none => toIDOpt g.ticket.claimed

/-- HelpTicket.close: marks the ticket closed, removes all players, backfills
an empty involvedStaff set, and runs writeStats. It does not check that the
ticket is still open, and it does not clear the claimed field. -/
def HelpTicket.close (g : HelpTicket) (result : CloseResult) (staff : Option User) (now : Int) :
    HelpTicket × StatsRecord :=
  let g1 := { g with ticket := { g.ticket with isOpen := false }, players := [] }
  let inv2 :=
    if g1.involvedStaff.isEmpty then addToSet g1.involvedStaff (backfillID g1 staff)
    else g1.involvedStaff
  let g2 := { g1 with involvedStaff := inv2 }
  g2.writeStats result now

/-- Modelled from the spec: the player-table maintenance of the room game base
class (Rooms.RoomGame.removePlayer) is not under src; removing a player deletes
its entry from the table and the player count is the table size. -/
def HelpTicket.removePlayer (g : HelpTicket) (i : String) : HelpTicket :=
  { g with players := g.players.filter (fun p => p != i) }

/-- HelpTicket.forfeit: a player abandoning the ticket is removed; when at most
one participant is left afterwards and the ticket is open, the ticket closes
with the boolean outcome firstClaimTime is nonzero. -/
def HelpTicket.forfeit (g : HelpTicket) (u : User) (now : Int) :
    HelpTicket × Option StatsRecord :=
  if !(g.players.contains u.id) then (g, none)
  else
    let g1 := g.removePlayer u.id
    if !g1.ticket.isOpen then (g1, none)
    else if g1.players.length - 1 > 0 then (g1, none)
    else
      let p := g1.close (CloseResult.bool (g1.firstClaimTime != 0)) (some u) now
      (p.1, some p.2)

/-- HelpTicket.destroy (teardown): when the ticket is still registered and
open, it is force-closed and finalized with a negative boolean outcome. -/
def HelpTicket.destroy (g : HelpTicket) (inTable : Bool) (now : Int) :
    HelpTicket × Option StatsRecord :=
  if inTable && g.ticket.isOpen then
    let g1 := { g with ticket := { g.ticket with isOpen := false } }
    let p := g1.writeStats (CloseResult.bool false) now
    (p.1, some p.2)
  else (g, none)

/-- Outcome of the helpticket close command on the ticket it addresses. -/
structure CloseCmdResult where
  rejected : Bool
  game : Option HelpTicket
  ticket : TicketState
  record : Option StatsRecord
deriving Repr, DecidableEq

/-- commands.helpticket.close on the addressed ticket: rejects when the ticket
is not open or the caller is neither the requester nor empowered; with a live
room it closes the game, overriding the parsed boolean with firstClaimTime
being nonzero for a non-staff requester; without a room it just clears the
open flag; in both cases it then writes the closing user into claimed. When
the room exists the table entry and the game ticket are the same object, so
the model takes the game ticket as the entry. -/
def closeCommand (ticket : TicketState) (game : Option HelpTicket) (user : User)
    (canLock : Bool) (targetFalse : Bool) (now : Int) : CloseCmdResult :=
  if !ticket.isOpen || (ticket.userid != user.id && !canLock) then
    { rejected := true, game := game, ticket := ticket, record := none }
  else
    match game with
    | some g =>
      let result := if ticket.userid == user.id && !user.isStaff then g.firstClaimTime != 0
                    else !targetFalse
      let p := g.close (CloseResult.bool result) (some user) now
      let t2 := { p.1.ticket with claimed := some user.name }
      { rejected := false, game := some { p.1 with ticket := t2 }, ticket := t2,
        record := some p.2 }
    | none =>
      { rejected := false, game := none,
        ticket := { ticket with isOpen := false, claimed := some user.name }, record := none }

/-- The punishmentfilter export: on a BAN punishment, when the help room of the
punished user exists and carries a helpticket game, that game is closed with
the ticketban outcome; no check of the open flag is made. -/
def punishmentfilter (punishmentType : String) (helpRoomGame : Option HelpTicket) (now : Int) :
    Option (HelpTicket × StatsRecord) :=
  if punishmentType != "BAN" then none
  else
    match helpRoomGame with
    | none => none
    | some g => some (g.close CloseResult.ticketban none now)

/-- NOTIFY_ALL_TIMEOUT: the long escalation delay, five minutes. -/
def NOTIFY_ALL_TIMEOUT : Int := 5 * 60 * 1000

/-- NOTIFY_ASSIST_TIMEOUT: the short escalation delay, one minute. -/
def NOTIFY_ASSIST_TIMEOUT : Int := 60 * 1000

/-- The escalation-timer slot of one audience room: whether a timeout is
pending and the timestamp timerEnds at which it would fire. -/
structure TimerState where
  pending : Bool
  timerEnds : Int
deriving Repr, DecidableEq

/-- pokeUnclaimedTicketTimer: arms a timer at the delay matching the urgency
when none is pending and unclaimed tickets exist; with a pending timer and an
assist request it reschedules to the short delay whenever
timerEnds - NOTIFY_ASSIST_TIMEOUT > NOTIFY_ASSIST_TIMEOUT (the source compares
the absolute end timestamp against the constant); cancels when no unclaimed
ticket remains. -/
def pokeUnclaimedTicketTimer (st : TimerState) (hasUnclaimed hasAssistRequest : Bool)
    (now : Int) : TimerState :=
  if hasUnclaimed && !st.pending then
    { pending := true,
      timerEnds := now + (if hasAssistRequest then NOTIFY_ASSIST_TIMEOUT
                          else NOTIFY_ALL_TIMEOUT) }
  else if hasAssistRequest && (st.timerEnds - NOTIFY_ASSIST_TIMEOUT > NOTIFY_ASSIST_TIMEOUT)
          && st.pending then
    { pending := true, timerEnds := now + NOTIFY_ASSIST_TIMEOUT }
  else if !hasUnclaimed && st.pending then
    { pending := false, timerEnds := 0 }
  else st

/-- TICKET_CACHE_TIME: the 24-hour retention window of the persisted table. -/
def TICKET_CACHE_TIME : Int := 24 * 60 * 60 * 1000

/-- One entry of the persisted ticket file: either a ticket record or an
old-format ban marker with expiry and reason. -/
structure PersistedEntry where
  key : String
  state : TicketState
  banned : Bool
  expires : Int := 0
  reason : String := ""
deriving Repr, DecidableEq

/-- Result of the module-load sweep over the persisted ticket file. -/
structure LoadResult where
  table : List (String × TicketState)
  bans : List (String × Int × String)
  statsWritten : List String
deriving Repr, DecidableEq

/-- The module-load block over the persisted ticket file: ban markers are
re-registered as punishments unless expired; entries past the retention window
are dropped, with a writeStats(false) side effect exactly when the matching
help room still exists; surviving open entries are force-closed unless the
load is a same-process hot reload. -/
def loadTickets (data : List PersistedEntry) (now : Int) (hotReload : Bool)
    (roomExists : String → Bool) : LoadResult :=
  match data with
  | [] => ⟨[], [], []⟩
  | e :: rest =>
    let r := loadTickets rest now hotReload roomExists
    if e.banned then
      if e.expires != 0 && e.expires ≤ now then r
      else { r with bans := (e.state.userid, e.expires, e.reason) :: r.bans }
    else if e.state.created + TICKET_CACHE_TIME ≤ now then
      if roomExists e.state.userid then { r with statsWritten := e.key :: r.statsWritten }
      else r
    else
      let t := if e.state.isOpen && !hotReload then { e.state with isOpen := false } else e.state
      { r with table := (e.key, t) :: r.table }

/-- An event delivered to a HelpTicket game by the room layer: a user joining
(with the room user list at that moment, joiner included), a user leaving, or
a chat message. -/
inductive TEvent where
  | join (u : User) (roomUsers : List User)
  | leave (u : User)
  | message (msg : String) (u : User)
deriving Repr, DecidableEq

/-- Dispatch of one timed event to the game handlers. -/
def stepGame (g : HelpTicket) (e : TEvent) (t : Int) : HelpTicket :=
  match e with
  | .join u roomUsers => g.onJoin u roomUsers t
  | .leave u => g.onLeave u none t
  | .message m u => g.onLogMessage m u t

/-- Run of a timed event list through the game handlers. -/
def runGame (g : HelpTicket) (evs : List (Int × TEvent)) : HelpTicket :=
  match evs with
  | [] => g
  | (t, e) :: rest => runGame (stepGame g e t) rest

/-- The ticket is in an unclaimed interval in the sense of the spec: active
and with no claimant. -/
def unclaimedNow (g : HelpTicket) : Bool :=
  g.ticket.active && g.ticket.claimed.isNone

/-- The unclaimed total writeStats would record when closing at the given
time: the accumulator plus the still-open interval when one is marked. -/
def finalUnclaimed (g : HelpTicket) (close : Int) : Int :=
  if g.lastUnclaimedStart != 0 then g.unclaimedTime + (close - g.lastUnclaimedStart)
  else g.unclaimedTime

/-- Specification-side unclaimed total of a trace: the sum of the lengths of
the maximal periods during which the ticket is active and unclaimed, from the
given start time up to the close time. The state is piecewise constant
between events, so the sum is a fold over consecutive event times. -/
def specUnclaimedSum (g : HelpTicket) (last : Int) (evs : List (Int × TEvent)) (close : Int) :
    Int :=
  match evs with
  | [] => if unclaimedNow g then close - last else 0
  | (t, e) :: rest =>
    (if unclaimedNow g then t - last else 0) + specUnclaimedSum (stepGame g e t) t rest close

/-- Event timestamps are positive, as real epoch-millisecond clocks are. -/
def timesPosB : List (Int × TEvent) → Bool
  | [] => true
  | (t, _) :: rest => decide (0 < t) && timesPosB rest

/-- Well-formedness of one event: joining users carry a nonempty display name
and leaving users a nonempty id, as real named users do. -/
def eventWFB : TEvent → Bool
  | .join u _ => u.name != ""
  | .leave u => u.id != ""
  | .message _ _ => true

/-- Well-formedness of every event of a trace. -/
def eventsWFB : List (Int × TEvent) → Bool
  | [] => true
  | (_, e) :: rest => eventWFB e && eventsWFB rest

/-- Whether an event takes the unclaim branch of onLeave in the given state:
a non-player claimant leaving an open ticket with an empty claim queue. -/
def isUnclaimEvent (g : HelpTicket) : TEvent → Bool
  | .leave u =>
    !(g.players.contains u.id) && g.ticket.isOpen &&
    (toIDOpt g.ticket.claimed == u.id) && g.claimQueue.isEmpty
  | _ => false

/-- Every unclaim along the trace happens while the ticket is active. -/
def noInactiveUnclaimB (g : HelpTicket) : List (Int × TEvent) → Bool
  | [] => true
  | (t, e) :: rest =>
    (!(isUnclaimEvent g e) || g.ticket.active) && noInactiveUnclaimB (stepGame g e t) rest

/-- A game state together with the user list of its room, as maintained by the
external room layer. -/
structure SysState where
  game : HelpTicket
  room : List User
deriving Repr, DecidableEq

/-- The ids of the users of a room. -/
def rIDs (room : List User) : List String := room.map User.id

/-- The toID images of the claim-queue entries. -/
def qIDs (g : HelpTicket) : List String := g.claimQueue.map toID

/-- One join or leave event as the room layer delivers it: a user joins only
while absent from the room and leaves only while present, the id of a real
user is the toID of its display name and is nonempty. -/
inductive HStep : SysState → SysState → Prop where
  | join (s : SysState) (u : User) (t : Int) :
      u.id = toID u.name → u.id ≠ "" → u.name ≠ "" →
      u.id ∉ rIDs s.room →
      HStep s ⟨s.game.onJoin u (u :: s.room) t, u :: s.room⟩
  | leave (s : SysState) (u : User) (t : Int) :
      u.id = toID u.name → u.id ≠ "" →
      u.id ∈ rIDs s.room →
      HStep s ⟨s.game.onLeave u none t, s.room.filter (fun v => v.id != u.id)⟩

/-- States reachable from a fresh ticket (created unclaimed, as the submit
command builds it) by join and leave events. -/
inductive HReach : SysState → Prop where
  | init (t : TicketState) (now : Int) :
      t.claimed = none → HReach ⟨HelpTicket.new t now, []⟩
  | step (s s2 : SysState) : HReach s → HStep s s2 → HReach s2

/-- The inductive invariant of the claim machinery: room ids are distinct and
nonempty, players and queued ids live in the room, queued ids are distinct and
disjoint from the players, the claimant is in the room and neither queued nor
a player, and a closed ticket has no claimant and an empty queue. -/
structure CInv (s : SysState) : Prop where
  room_nodup : (rIDs s.room).Nodup
  room_ne : ∀ i ∈ rIDs s.room, i ≠ ""
  players_sub : ∀ p ∈ s.game.players, p ∈ rIDs s.room
  queue_nodup : (qIDs s.game).Nodup
  queue_room : ∀ i ∈ qIDs s.game, i ∈ rIDs s.room
  queue_np : ∀ i ∈ qIDs s.game, i ∉ s.game.players
  cl_room : ∀ c, s.game.ticket.claimed = some c → toID c ∈ rIDs s.room
  cl_nq : ∀ c, s.game.ticket.claimed = some c → toID c ∉ qIDs s.game
  cl_np : ∀ c, s.game.ticket.claimed = some c → toID c ∉ s.game.players
  closed_clean : s.game.ticket.isOpen = false →
    s.game.ticket.claimed = none ∧ s.game.claimQueue = []

/-- The accounting invariant of the unclaimed clock: while active and
unclaimed a nonzero interval start is marked, otherwise no interval is open;
the claimant and the queue entries are nonempty strings. -/
def InvUC (g : HelpTicket) : Prop :=
  (unclaimedNow g = true → g.lastUnclaimedStart ≠ 0)
  ∧ (unclaimedNow g = false → g.lastUnclaimedStart = 0)
  ∧ g.ticket.claimed ≠ some ""
  ∧ (∀ n ∈ g.claimQueue, n ≠ "")

/-! Concrete scenarios used by the counterexamples and witnesses below. -/

/-- A fresh unclaimed active ticket of the requester alice. -/
def aliceT : TicketState :=
  { creator := "alice", userid := "alice", isOpen := true, active := true,
    ty := "Other", created := 100, claimed := none, ip := "ip1" }

/-- The requester of the concrete scenarios. -/
def alice : User := { id := "alice", name := "alice", isStaff := false, named := true }

/-- A staff member. -/
def staffa : User := { id := "staffa", name := "staffa", isStaff := true, named := true }

/-- A second staff member. -/
def staffb : User := { id := "staffb", name := "staffb", isStaff := true, named := true }

/-- A third staff member. -/
def staffc : User := { id := "staffc", name := "staffc", isStaff := true, named := true }

/-- C2 scenario: an open ticket claimed by staffa with staffb and staffc
queued. -/
def c2g : HelpTicket :=
  { HelpTicket.new aliceT 100 with
    ticket := { aliceT with claimed := some "staffa" },
    claimQueue := ["staffb", "staffc"],
    firstClaimTime := 150 }

/-- C3 scenario: an open claimed ticket about to be closed manually. -/
def c3g0 : HelpTicket :=
  { HelpTicket.new aliceT 100 with
    ticket := { aliceT with claimed := some "staffa" },
    firstClaimTime := 150,
    lastUnclaimedStart := 0 }

/-- C3 scenario: the game after the manual close at time 200. -/
def c3g1 : HelpTicket := (c3g0.close (CloseResult.bool true) (some staffa) 200).1

/-- C3 scenario: the statistics records emitted by the manual close and by the
subsequent ban-driven close of the already-closed ticket. -/
def c3records : List StatsRecord :=
  (c3g0.close (CloseResult.bool true) (some staffa) 200).2 ::
  (match punishmentfilter "BAN" (some c3g1) 300 with
   | some p => [p.2]
   | none => [])

/-- C3 witness scenario: a table entry that is already closed. -/
def c3closedT : TicketState := { aliceT with isOpen := false }

/-- C4 scenario: an open claimed ticket and its game. -/
def c4g : HelpTicket :=
  { HelpTicket.new aliceT 100 with
    ticket := { aliceT with claimed := some "staffb" },
    firstClaimTime := 150,
    lastUnclaimedStart := 0 }

/-- C6 scenario: an active-seeded ticket of the appeal type without context
gathering. -/
def c6t : TicketState := { aliceT with ty := "ISP-Appeal" }

/-- C6 scenario: the fresh game. -/
def c6g0 : HelpTicket := HelpTicket.new c6t 100

/-- C6 scenario: staffa claims at time 200 while alone in the room, then the
requester joins at time 300. -/
def c6evs : List (Int × TEvent) :=
  [(200, .join staffa [staffa]), (300, .join alice [alice, staffa])]

/-- C7 scenario: an inactive ticket, claimed and unclaimed before activation,
claimed again, then activated. -/
def c7t : TicketState := { aliceT with active := false }

/-- C7 scenario: the fresh inactive game. -/
def c7g0 : HelpTicket := HelpTicket.new c7t 100

/-- C7 scenario: claim at 200, unclaim at 300 (ticket still inactive), second
claim at 400, activation at 500. -/
def c7evs : List (Int × TEvent) :=
  [(200, .join staffa [staffa]), (300, .leave staffa),
   (400, .join staffb [staffb]), (500, .message "someone was harassing me" alice)]

/-- C7 witness scenario: active-seeded ticket, claim at 200, unclaim at 300,
close at 1000: the unclaimed intervals are 100 to 200 and 300 to 1000. -/
def c7wevs : List (Int × TEvent) :=
  [(200, .join staffa [staffa]), (300, .leave staffa)]

/-- C8 scenario: an open entry persisted longer ago than the retention
window. -/
def c8e : PersistedEntry :=
  { key := "alice", state := { aliceT with created := 0 }, banned := false }

/-- C8 witness scenario: an open entry within the retention window. -/
def c8e2 : PersistedEntry :=
  { key := "alice", state := { aliceT with created := 1000 }, banned := false }

/-- C9 scenario: a never-activated ticket and its fresh game. -/
def c9g : HelpTicket := HelpTicket.new c7t 100

/-- C9 witness scenario: an activated ticket with two involved staff. -/
def c9g2 : HelpTicket :=
  { HelpTicket.new aliceT 100 with
    activationTime := 120,
    involvedStaff := ["staffa", "staffb"] }

/-- C10 scenario: an open never-claimed ticket whose only player is the
requester. -/
def c10g : HelpTicket := { HelpTicket.new aliceT 100 with players := ["alice"] }

/-- C1 scenario: the fresh system state of the concrete ticket. -/
def c1s0 : SysState := ⟨HelpTicket.new aliceT 100, []⟩

/-- C1 scenario: staffa has joined and claimed. -/
def c1s1 : SysState := ⟨c1s0.game.onJoin staffa (staffa :: c1s0.room) 200, staffa :: c1s0.room⟩

/-- C1 scenario: staffb has joined and is queued. -/
def c1s2 : SysState := ⟨c1s1.game.onJoin staffb (staffb :: c1s1.room) 300, staffb :: c1s1.room⟩

/-! Theorems. -/

/-- C2: when the claiming staff member leaves an open ticket, a non-empty
claim queue promotes its head (strict FIFO) and drops it from the queue, and
an empty queue clears claimed and records the unclaim time as the start of a
new unclaimed interval. -/
theorem c2_fifo_promotion (g : HelpTicket) (u : User) (now : Int) (c : String)
    (hopen : g.ticket.isOpen = true)
    (hnp : g.players.contains u.id = false)
    (hcl : g.ticket.claimed = some c)
    (hid : toID c = u.id) :
    (∀ next rest, g.claimQueue = next :: rest → next ≠ "" →
      (g.onLeave u none now).ticket.claimed = some next ∧
      (g.onLeave u none now).claimQueue = rest) ∧
    (g.claimQueue = [] →
      (g.onLeave u none now).ticket.claimed = none ∧
      (g.onLeave u none now).lastUnclaimedStart = now) := by
  unfold HelpTicket.onLeave
  simp only [hnp, hopen, hcl, toIDOpt, hid, beq_self_eq_true, if_true, if_false,
    Bool.not_true, Bool.false_eq_true, ite_true, ite_false]
  constructor
  · intro next rest hq hne
    rw [hq]
    simp [hne]
  · intro hq
    rw [hq]
    simp

/-- C2 witness: staffa leaves the concrete claimed ticket with queue staffb,
staffc; the new claimant is staffb and the queue is staffc. -/
theorem c2_witness :
    (c2g.onLeave staffa none 900).ticket.claimed = some "staffb" ∧
    (c2g.onLeave staffa none 900).claimQueue = ["staffc"] :=
  (c2_fifo_promotion c2g staffa 900 "staffa" rfl rfl rfl (by decide)).1
    "staffb" ["staffc"] rfl (by decide)

/-- C3 counterexample: after the manual close of the concrete ticket the open
flag is false, yet the ban-driven close path still runs finalization, so two
statistics records are emitted for the one ticket. -/
theorem c3_counterexample : c3g1.ticket.isOpen = false ∧ c3records.length = 2 := by decide

/-- C3 amended: closing an already-closed ticket through the close command is
rejected with no state change and no statistics record; the ban-driven close
path (punishmentfilter) however performs no open check and always re-enters
finalization while the ticket room exists, so a second record can be emitted
for a ticket that is already closed. -/
theorem c3_close_idempotence (t : TicketState) (game : Option HelpTicket) (u : User)
    (canLock targetFalse : Bool) (now : Int) (g2 : HelpTicket) (now2 : Int)
    (h : t.isOpen = false) :
    ((closeCommand t game u canLock targetFalse now).rejected = true ∧
     (closeCommand t game u canLock targetFalse now).record = none ∧
     (closeCommand t game u canLock targetFalse now).ticket = t) ∧
    (punishmentfilter "BAN" (some g2) now2).isSome = true := by
  constructor
  · unfold closeCommand
    simp [h]
  · rfl

/-- C3 witness: the close command on a concrete closed ticket is rejected
without a record, and the ban path still emits on a concrete closed game. -/
theorem c3_witness :
    ((closeCommand c3closedT none staffa true false 400).rejected = true ∧
     (closeCommand c3closedT none staffa true false 400).record = none ∧
     (closeCommand c3closedT none staffa true false 400).ticket = c3closedT) ∧
    (punishmentfilter "BAN" (some c3g1) 300).isSome = true :=
  c3_close_idempotence c3closedT none staffa true false 400 c3g1 300 rfl

/-- C4 counterexample: a successful close command leaves the ticket with
open false and claimed set to the name of the closing user, so a closed
ticket carries a non-empty claimed field. -/
theorem c4_counterexample :
    (closeCommand c4g.ticket (some c4g) staffc true false 500).ticket.isOpen = false ∧
    (closeCommand c4g.ticket (some c4g) staffc true false 500).ticket.claimed
      = some "staffc" := by decide

/-- C4 amended: HelpTicket.close sets open to false but leaves claimed
unchanged, and a successful close command afterwards writes the closing user
into claimed, so claimed may be non-empty while open is false; joining a
closed ticket still changes nothing, so no join sets claimed on a closed
ticket. -/
theorem c4_claimed_after_close (g : HelpTicket) (r : CloseResult) (staff : Option User)
    (now : Int) (t : TicketState) (game : Option HelpTicket) (u : User)
    (canLock targetFalse : Bool) (now2 : Int) (g2 : HelpTicket) (u2 : User)
    (roomUsers : List User) (now3 : Int) :
    ((g.close r staff now).1.ticket.claimed = g.ticket.claimed) ∧
    ((g.close r staff now).1.ticket.isOpen = false) ∧
    (t.isOpen = true → (t.userid = u.id ∨ canLock = true) →
      (closeCommand t game u canLock targetFalse now2).ticket.isOpen = false ∧
      (closeCommand t game u canLock targetFalse now2).ticket.claimed = some u.name) ∧
    (g2.ticket.isOpen = false → g2.onJoin u2 roomUsers now3 = g2) := by
  refine ⟨rfl, rfl, ?_, ?_⟩
  · intro h1 h2
    unfold closeCommand
    have hcond : (!t.isOpen || (t.userid != u.id && !canLock)) = false := by
      rcases h2 with h2 | h2 <;> simp [h1, h2]
    rw [hcond]
    simp only [Bool.false_eq_true, if_false]
    cases game <;> exact ⟨rfl, rfl⟩
  · intro h
    unfold HelpTicket.onJoin
    simp [h]

/-- C4 witness: a concrete successful close by staffa leaves open false and
claimed holding staffa. -/
theorem c4_witness :
    (closeCommand c4g.ticket (some c4g) staffa true false 600).ticket.isOpen = false ∧
    (closeCommand c4g.ticket (some c4g) staffa true false 600).ticket.claimed
      = some "staffa" :=
  (c4_claimed_after_close c4g (CloseResult.bool true) (some staffa) 600 c4g.ticket
    (some c4g) staffa true false 600 c4g staffa [] 0).2.2.1 rfl (Or.inr rfl)

/-- C5: the reschedule guard of pokeUnclaimedTicketTimer compares the absolute
firing timestamp with a constant instead of the remaining time, so a pending
timer with less than the short delay remaining is rescheduled to fire later:
with 10 seconds remaining the firing time moves from 1000000000 to 1000050000.
The claim describes the intended remaining-time check that the source comment
Shorten timer also documents. -/
theorem c5_timer_lengthened :
    pokeUnclaimedTicketTimer { pending := true, timerEnds := 1000000000 } true true 999990000
      = { pending := true, timerEnds := 1000050000 } ∧
    (1000000000 : Int) - 999990000 < NOTIFY_ASSIST_TIMEOUT ∧
    ((1000050000 : Int) > 1000000000) := by decide

/-- C6 counterexample: in the concrete trace the room holds no qualifying
non-staff participant at the moment of first claim, the ticket is activated
and claimed, yet close resolves it as resolved because the later join of the
requester cleared the emptyRoom flag; the claim predicts unresolved. -/
theorem c6_counterexample :
    ([staffa].filter (ticketRoomUserFilter c6t)).length = 0 ∧
    (runGame c6g0 c6evs).ticket.active = true ∧
    (runGame c6g0 c6evs).firstClaimTime = 200 ∧
    ((runGame c6g0 c6evs).writeStats (CloseResult.bool true) 1000).2.resolution
      = Resolution.resolved := by decide

/-- C6 amended: at close the resolution is dead when the ticket never
activated, otherwise unresolved when it was never claimed or the emptyRoom
flag is still set, otherwise resolved; the flag records an empty room at first
claim but is cleared again whenever a non-staff participant or the requester
joins later. -/
theorem c6_resolution_rule (g : HelpTicket) (r : CloseResult) (now : Int)
    (g2 : HelpTicket) (u : User) (roomUsers : List User) (t2 : Int) :
    ((g.writeStats r now).2.resolution =
      (if !g.ticket.active then Resolution.dead
       else if g.firstClaimTime == 0 || g.emptyRoom then Resolution.unresolved
       else Resolution.resolved)) ∧
    (g2.ticket.isOpen = true → (!u.isStaff || u.id == g2.ticket.userid) = true →
      (g2.onJoin u roomUsers t2).emptyRoom = false) := by
  constructor
  · rfl
  · intro h1 h2
    unfold HelpTicket.onJoin
    simp [h1, h2]

/-- C6 witness: the requester joining the concrete open ticket clears the
emptyRoom flag. -/
theorem c6_witness : (c6g0.onJoin alice [alice] 150).emptyRoom = false :=
  (c6_resolution_rule c6g0 (CloseResult.bool true) 900 c6g0 alice [alice] 150).2
    rfl (by decide)

/-- C7 counterexample: in the concrete trace the ticket is claimed and
unclaimed before activation and claimed again through activation and close, so
no active unclaimed interval ever exists, yet close records 700 milliseconds of
unclaimed time from the stale pre-activation interval start. -/
theorem c7_counterexample :
    (runGame c7g0 c7evs).ticket.active = true ∧
    ((runGame c7g0 c7evs).writeStats (CloseResult.bool true) 1000).2.unclaimedTime = 700 ∧
    specUnclaimedSum c7g0 100 c7evs 1000 = 0 ∧
    ((runGame c7g0 c7evs).writeStats (CloseResult.bool true) 1000).2.unclaimedTime
      ≠ specUnclaimedSum c7g0 100 c7evs 1000 := by decide

/-- C8 counterexample: an entry older than the retention window that is still
open is dropped by the load sweep, but on a cold restart its help room no
longer exists and no statistics record is produced, against the exactly-one
prediction of the claim. -/
theorem c8_counterexample :
    c8e.state.isOpen = true ∧
    c8e.state.created + TICKET_CACHE_TIME ≤ 86400000 ∧
    (loadTickets [c8e] 86400000 false (fun _ => false)).table = [] ∧
    (loadTickets [c8e] 86400000 false (fun _ => false)).statsWritten = [] := by decide

/-- C8 amended: the load sweep converts a non-expired ban marker into a ban
registration and drops an expired one, keeping neither in the table; an entry
past the retention window is dropped, with a finalization side effect exactly
when its help room still exists, regardless of the open flag; a younger open
entry is kept and forced closed unless the load is a hot reload, and a younger
closed entry (or any younger entry on hot reload) is kept unchanged. -/
theorem c8_load_sweep (e : PersistedEntry) (now : Int) (hot : Bool)
    (roomExists : String → Bool) :
    (e.banned = true → ¬(e.expires ≠ 0 ∧ e.expires ≤ now) →
      loadTickets [e] now hot roomExists
        = ⟨[], [(e.state.userid, e.expires, e.reason)], []⟩) ∧
    (e.banned = true → e.expires ≠ 0 → e.expires ≤ now →
      loadTickets [e] now hot roomExists = ⟨[], [], []⟩) ∧
    (e.banned = false → e.state.created + TICKET_CACHE_TIME ≤ now →
      (loadTickets [e] now hot roomExists).table = [] ∧
      (loadTickets [e] now hot roomExists).statsWritten
        = (if roomExists e.state.userid then [e.key] else [])) ∧
    (e.banned = false → ¬(e.state.created + TICKET_CACHE_TIME ≤ now) →
      e.state.isOpen = true → hot = false →
      (loadTickets [e] now hot roomExists).table
        = [(e.key, { e.state with isOpen := false })]) ∧
    (e.banned = false → ¬(e.state.created + TICKET_CACHE_TIME ≤ now) →
      (e.state.isOpen = false ∨ hot = true) →
      (loadTickets [e] now hot roomExists).table = [(e.key, e.state)]) := by
  refine ⟨?_, ?_, ?_, ?_, ?_⟩
  · intro hb hx
    unfold loadTickets loadTickets
    have : (e.expires != 0 && decide (e.expires ≤ now)) = false := by
      by_cases h : e.expires = 0
      · simp [h]
      · have hle : ¬ (e.expires ≤ now) := fun hle => hx ⟨h, hle⟩
        simp [h, hle]
    simp [hb, this]
  · intro hb h1 h2
    unfold loadTickets loadTickets
    simp [hb, h1, h2]
  · intro hb h1
    unfold loadTickets loadTickets
    cases hr : roomExists e.state.userid <;> simp [hb, h1, hr]
  · intro hb h1 h2 h3
    unfold loadTickets loadTickets
    simp [hb, h1, h2, h3]
  · intro hb h1 h2
    unfold loadTickets loadTickets
    rcases h2 with h2 | h2 <;> simp [hb, h1, h2]

/-- C8 witness: a concrete open entry within the retention window loads on a
cold restart as the same entry with open forced to false. -/
theorem c8_witness :
    (loadTickets [c8e2] 2000 false (fun _ => false)).table
      = [("alice", { c8e2.state with isOpen := false })] :=
  (c8_load_sweep c8e2 2000 false (fun _ => false)).2.2.2.1 rfl (by decide) rfl rfl

/-- C9 counterexample: closing the concrete never-activated ticket backfills
involvedStaff with the closing staff member, yet the emitted record carries an
empty staff field because the staff join is gated on a nonzero activation
time. -/
theorem c9_counterexample :
    (c9g.close (CloseResult.bool true) (some staffa) 200).1.involvedStaff = ["staffa"] ∧
    (c9g.close (CloseResult.bool true) (some staffa) 200).2.staff = "" := by decide

/-- C9 amended: at close an empty involvedStaff set is backfilled with the
closing staff member when that member is staff and distinct from the
requester, and otherwise with toID of the last claimant; the final field of
the emitted record is the comma-joined involved staff when the ticket was
activated, and is empty for a never-activated ticket. -/
theorem c9_staff_backfill (g : HelpTicket) (r : CloseResult) (staff : Option User)
    (now : Int) :
    ((g.close r staff now).1.involvedStaff =
      if g.involvedStaff.isEmpty then [backfillID g staff] else g.involvedStaff) ∧
    (g.activationTime ≠ 0 →
      (g.close r staff now).2.staff =
        String.intercalate "," ((g.close r staff now).1.involvedStaff)) := by
  constructor
  · show (if g.involvedStaff.isEmpty then addToSet g.involvedStaff
            (backfillID { g with ticket := { g.ticket with isOpen := false },
                                 players := [] } staff)
          else g.involvedStaff) = _
    cases h : g.involvedStaff with
    | nil => simp [addToSet, backfillID]
    | cons a as => simp
  · intro h
    have h2 : (g.activationTime != 0) = true := by simpa using h
    show (if (g.activationTime != 0) = true then
            String.intercalate "," ((g.close r staff now).1.involvedStaff) else "") = _
    rw [if_pos h2]

/-- C9 witness: closing a concrete activated ticket with two involved staff
emits their comma-joined identities in the staff field of the record. -/
theorem c9_witness :
    (c9g2.close (CloseResult.bool true) (some staffc) 300).2.staff
      = String.intercalate ","
          ((c9g2.close (CloseResult.bool true) (some staffc) 300).1.involvedStaff) ∧
    (c9g2.close (CloseResult.bool true) (some staffc) 300).2.staff = "staffa,staffb" :=
  ⟨(c9_staff_backfill c9g2 (CloseResult.bool true) (some staffc) 300).2 (by decide),
   by decide⟩

/-- C10: a forfeit that leaves no other participant closes the open ticket
with the boolean outcome firstClaimTime is nonzero, and the close command run
by the non-staff requester on an own open ticket with a live room likewise
derives the boolean outcome from firstClaimTime being nonzero, whatever
boolean was passed on the command line. -/
theorem c10_requester_close_outcome (g : HelpTicket) (u : User) (now : Int)
    (t : TicketState) (g2 : HelpTicket) (u2 : User) (targetFalse canLock : Bool)
    (now2 : Int) :
    (g.players.contains u.id = true → g.ticket.isOpen = true →
      (g.removePlayer u.id).players = [] →
      (g.forfeit u now).2
        = some ((g.removePlayer u.id).close (CloseResult.bool (g.firstClaimTime != 0))
                  (some u) now).2) ∧
    (t.isOpen = true → t.userid = u2.id → u2.isStaff = false →
      (closeCommand t (some g2) u2 canLock targetFalse now2).record
        = some (g2.close (CloseResult.bool (g2.firstClaimTime != 0)) (some u2) now2).2) := by
  constructor
  · intro h1 h2 h3
    unfold HelpTicket.forfeit
    simp only [h1, Bool.not_true, Bool.false_eq_true, if_false]
    have hopen : (!(g.removePlayer u.id).ticket.isOpen) = false := by
      show (!g.ticket.isOpen) = false
      simp [h2]
    rw [hopen]
    simp only [Bool.false_eq_true, if_false, h3]
    rfl
  · intro h1 h2 h3
    unfold closeCommand
    have hcond : (!t.isOpen || (t.userid != u2.id && !canLock)) = false := by
      simp [h1, h2]
    rw [hcond]
    simp only [Bool.false_eq_true, if_false]
    have hres : (t.userid == u2.id && !u2.isStaff) = true := by
      simp [h2, h3]
    rw [hres]
    simp

/-- C10 witness: the requester abandoning the concrete never-claimed ticket as
its last participant closes it and the record carries the negative result
unassisted. -/
theorem c10_witness :
    (c10g.forfeit alice 700).2
      = some ((c10g.removePlayer "alice").close
                (CloseResult.bool (c10g.firstClaimTime != 0)) (some alice) 700).2 ∧
    ((c10g.forfeit alice 700).2.map StatsRecord.result) = some TicketResult.unassisted :=
  ⟨(c10_requester_close_outcome c10g alice 700 aliceT c10g alice false true 700).1
      rfl rfl (by decide),
   by decide⟩



theorem jsFalsy_none (o : Option String) (h : o ≠ some "") :
    jsFalsyStr o = true ↔ o = none := by
  cases o with
  | none => simp [jsFalsyStr]
  | some s =>
    simp only [jsFalsyStr, beq_iff_eq]
    constructor
    · intro hs; exact absurd (by rw [hs]) h
    · intro hs; cases hs

theorem mem_removeFirstByID (q : List String) (i n : String)
    (h : n ∈ removeFirstByID q i) : n ∈ q := by
  induction q with
  | nil => simp [removeFirstByID] at h
  | cons a rest ih =>
    unfold removeFirstByID at h
    by_cases hc : (toID a == i) = true
    · rw [if_pos hc] at h
      exact List.mem_cons_of_mem _ h
    · rw [if_neg hc] at h
      rcases List.mem_cons.mp h with h | h
      · exact h ▸ List.mem_cons_self a rest
      · exact List.mem_cons_of_mem _ (ih h)

theorem onJoin_claim_fields (g : HelpTicket) (u : User) (room : List User) (t : Int)
    (hopen : g.ticket.isOpen = true)
    (hns : (!u.isStaff || u.id == g.ticket.userid) = false)
    (hcl : jsFalsyStr g.ticket.claimed = true) :
    (g.onJoin u room t).ticket.claimed = some u.name ∧
    (g.onJoin u room t).ticket.active = g.ticket.active ∧
    (g.onJoin u room t).claimQueue = g.claimQueue ∧
    (g.onJoin u room t).unclaimedTime
      = (if g.ticket.active then g.unclaimedTime + (t - g.lastUnclaimedStart)
         else g.unclaimedTime) ∧
    (g.onJoin u room t).lastUnclaimedStart
      = (if g.ticket.active then 0 else g.lastUnclaimedStart) := by
  unfold HelpTicket.onJoin
  simp only [hopen, hns, hcl, Bool.not_true, Bool.false_eq_true, if_false, if_true]
  refine ⟨?_, ?_, ?_, ?_, ?_⟩ <;> (repeat' split) <;> simp

theorem invUC_same (g g2 : HelpTicket) (last t : Int)
    (hInv : InvUC g)
    (hact : g2.ticket.active = g.ticket.active)
    (hcl : g2.ticket.claimed = g.ticket.claimed)
    (hU : g2.unclaimedTime = g.unclaimedTime)
    (hls : g2.lastUnclaimedStart = g.lastUnclaimedStart)
    (hq : ∀ n ∈ g2.claimQueue, n ∈ g.claimQueue) :
    InvUC g2 ∧
    finalUnclaimed g2 t
      = finalUnclaimed g last + (if unclaimedNow g = true then t - last else 0) := by
  obtain ⟨h1, h2, h3, h4⟩ := hInv
  have huc : unclaimedNow g2 = unclaimedNow g := by
    unfold unclaimedNow; rw [hact, hcl]
  refine ⟨⟨?_, ?_, ?_, ?_⟩, ?_⟩
  · rw [huc, hls]; exact h1
  · rw [huc, hls]; exact h2
  · rw [hcl]; exact h3
  · exact fun n hn => h4 n (hq n hn)
  · unfold finalUnclaimed
    rw [hU, hls]
    cases hu : unclaimedNow g with
    | true =>
      have hne : g.lastUnclaimedStart ≠ 0 := h1 hu
      rw [if_pos (bne_iff_ne.mpr hne), if_pos (bne_iff_ne.mpr hne)]
      simp only [if_true]
      ring
    | false =>
      have hz : g.lastUnclaimedStart = 0 := h2 hu
      rw [hz]
      simp



theorem stepAccounting (g : HelpTicket) (e : TEvent) (last t : Int)
    (hInv : InvUC g) (ht : 0 < t)
    (hwf : eventWFB e = true)
    (hno : isUnclaimEvent g e = true → g.ticket.active = true) :
    InvUC (stepGame g e t) ∧
    finalUnclaimed (stepGame g e t) t
      = finalUnclaimed g last + (if unclaimedNow g = true then t - last else 0) := by
  obtain ⟨h1, h2, h3, h4⟩ := hInv
  cases e with
  | join u room =>
    simp only [stepGame]
    have hwf2 : u.name ≠ "" := by simpa [eventWFB] using hwf
    cases hopen : g.ticket.isOpen with
    | false =>
      have hg : g.onJoin u room t = g := by simp [HelpTicket.onJoin, hopen]
      rw [hg]
      exact invUC_same g g last t ⟨h1, h2, h3, h4⟩ rfl rfl rfl rfl (fun n hn => hn)
    | true =>
      cases hns : (!u.isStaff || u.id == g.ticket.userid) with
      | true =>
        have hg : g.onJoin u room t
            = { g with emptyRoom := false, players := g.players ++ [u.id],
                       ticket := { g.ticket with offline := false } } := by
          simp [HelpTicket.onJoin, hopen, hns]
        rw [hg]
        exact invUC_same g _ last t ⟨h1, h2, h3, h4⟩ rfl rfl rfl rfl (fun n hn => hn)
      | false =>
        cases hfal : jsFalsyStr g.ticket.claimed with
        | false =>
          have hg : g.onJoin u room t = { g with claimQueue := g.claimQueue ++ [u.name] } := by
            simp [HelpTicket.onJoin, hopen, hns, hfal]
          rw [hg]
          have huc : unclaimedNow g = false := by
            unfold unclaimedNow
            cases hc : g.ticket.claimed with
            | none => rw [hc] at hfal; simp [jsFalsyStr] at hfal
            | some s => simp
          refine ⟨⟨?_, ?_, ?_, ?_⟩, ?_⟩
          · intro hcon
            rw [show unclaimedNow { g with claimQueue := g.claimQueue ++ [u.name] }
                = unclaimedNow g from rfl, huc] at hcon
            cases hcon
          · intro _
            exact h2 huc
          · exact h3
          · intro n hn
            rcases List.mem_append.mp hn with hn | hn
            · exact h4 n hn
            · rcases List.mem_singleton.mp hn with rfl
              exact hwf2
          · have hz : g.lastUnclaimedStart = 0 := h2 huc
            unfold finalUnclaimed
            simp [huc, hz]
        | true =>
          have hnone : g.ticket.claimed = none := (jsFalsy_none _ h3).mp hfal
          have huc : unclaimedNow g = g.ticket.active := by
            unfold unclaimedNow; rw [hnone]; simp
          cases hact : g.ticket.active with
          | true =>
            have hf := onJoin_claim_fields g u room t hopen hns hfal
            rw [hact] at hf
            simp only [if_true] at hf
            obtain ⟨hf1, hf2, hf3, hf4, hf5⟩ := hf
            have huc2 : unclaimedNow (g.onJoin u room t) = false := by
              unfold unclaimedNow; rw [hf1]; simp
            have hucg : unclaimedNow g = true := by rw [huc, hact]
            have hne : g.lastUnclaimedStart ≠ 0 := h1 hucg
            refine ⟨⟨?_, ?_, ?_, ?_⟩, ?_⟩
            · intro hcon; rw [huc2] at hcon; cases hcon
            · intro _; rw [hf5]
            · rw [hf1]
              intro hcon
              exact hwf2 (Option.some.inj hcon)
            · intro n hn; rw [hf3] at hn; exact h4 n hn
            · unfold finalUnclaimed
              rw [hf4, hf5, hucg]
              rw [if_pos (bne_iff_ne.mpr hne)]
              simp only [if_true]
              have hzz : ((0 : Int) != 0) = false := by simp
              rw [hzz]
              simp only [Bool.false_eq_true, if_false]
              ring
          | false =>
            have hf := onJoin_claim_fields g u room t hopen hns hfal
            rw [hact] at hf
            simp only [Bool.false_eq_true, if_false] at hf
            obtain ⟨hf1, hf2, hf3, hf4, hf5⟩ := hf
            have hucg : unclaimedNow g = false := by rw [huc, hact]
            have hz : g.lastUnclaimedStart = 0 := h2 hucg
            have huc2 : unclaimedNow (g.onJoin u room t) = false := by
              unfold unclaimedNow; rw [hf1]; simp
            refine ⟨⟨?_, ?_, ?_, ?_⟩, ?_⟩
            · intro hcon; rw [huc2] at hcon; cases hcon
            · intro _; rw [hf5]; exact hz
            · rw [hf1]
              intro hcon
              exact hwf2 (Option.some.inj hcon)
            · intro n hn; rw [hf3] at hn; exact h4 n hn
            · unfold finalUnclaimed
              rw [hf4, hf5, hz, hucg]
              simp
  | leave u =>
    simp only [stepGame]
    have hwf2 : u.id ≠ "" := by simpa [eventWFB] using hwf
    cases hp : g.players.contains u.id with
    | true =>
      have hg : g.onLeave u none t
          = { g with players := g.players.filter (fun p => p != u.id),
                     ticket := { g.ticket with offline := true } } := by
        unfold HelpTicket.onLeave
        simp only [hp, if_true]
      rw [hg]
      exact invUC_same g _ last t ⟨h1, h2, h3, h4⟩ rfl rfl rfl rfl (fun n hn => hn)
    | false =>
      cases hopen : g.ticket.isOpen with
      | false =>
        have hg : g.onLeave u none t = g := by
          unfold HelpTicket.onLeave
          simp only [hp, hopen, Bool.false_eq_true, if_false, Bool.not_false, if_true]
        rw [hg]
        exact invUC_same g g last t ⟨h1, h2, h3, h4⟩ rfl rfl rfl rfl (fun n hn => hn)
      | true =>
        cases hcm : (toIDOpt g.ticket.claimed == u.id) with
        | false =>
          have hg : g.onLeave u none t
              = { g with claimQueue := removeFirstByID g.claimQueue u.id } := by
            unfold HelpTicket.onLeave
            simp only [hp, hopen, hcm, Bool.false_eq_true, if_false, Bool.not_true]
        
          rw [hg]
          exact invUC_same g _ last t ⟨h1, h2, h3, h4⟩ rfl rfl rfl rfl
            (fun n hn => mem_removeFirstByID _ _ _ hn)
        | true =>
          cases hc : g.ticket.claimed with
          | none =>
            exfalso
            rw [hc] at hcm
            simp only [toIDOpt, beq_iff_eq] at hcm
            exact hwf2 hcm.symm
          | some c =>
            have hucg : unclaimedNow g = false := by
              unfold unclaimedNow; rw [hc]; simp
            have hz : g.lastUnclaimedStart = 0 := h2 hucg
            cases hq : g.claimQueue with
            | nil =>
              have hg : g.onLeave u none t
                  = { g with ticket := { g.ticket with claimed := none },
                             lastUnclaimedStart := t } := by
                unfold HelpTicket.onLeave
                simp only [hp, hopen, hcm, hq, Bool.false_eq_true, if_false,
                  Bool.not_true, if_true]
              have hact : g.ticket.active = true := by
                apply hno
                simp only [isUnclaimEvent, hp, hopen, hcm, hq]
                rfl
              rw [hg]
              have huc2 : unclaimedNow
                  { g with ticket := { g.ticket with claimed := none },
                           lastUnclaimedStart := t } = true := by
                unfold unclaimedNow
                simp [hact]
              refine ⟨⟨?_, ?_, ?_, ?_⟩, ?_⟩
              · intro _
                show t ≠ 0
                omega
              · intro hcon; rw [huc2] at hcon; cases hcon
              · intro hcon; cases hcon
              · exact h4
              · unfold finalUnclaimed
                rw [hucg, hz]
                have htne : ((t : Int) != 0) = true := bne_iff_ne.mpr (by omega)
                simp only [htne, if_true]
                simp
            | cons next rest =>
              have hne : next ≠ "" := h4 next (by rw [hq]; exact List.mem_cons_self _ _)
              have hnee : (next == "") = false := by simpa using hne
              have hg : g.onLeave u none t
                  = { g with ticket := { g.ticket with claimed := some next },
                             claimQueue := rest } := by
                unfold HelpTicket.onLeave
                simp only [hp, hopen, hcm, hq, hnee, Bool.false_eq_true, if_false,
                  Bool.not_true, if_true]
              rw [hg]
              have huc2 : unclaimedNow
                  { g with ticket := { g.ticket with claimed := some next },
                           claimQueue := rest } = false := by
                unfold unclaimedNow; simp
              refine ⟨⟨?_, ?_, ?_, ?_⟩, ?_⟩
              · intro hcon; rw [huc2] at hcon; cases hcon
              · intro _; exact hz
              · intro hcon
                exact hne (Option.some.inj hcon)
              · intro n hn
                exact h4 n (by rw [hq]; exact List.mem_cons_of_mem _ hn)
              · unfold finalUnclaimed
                rw [hucg, hz]
                simp
  | message m u =>
    simp only [stepGame]
    cases hopen : g.ticket.isOpen with
    | false =>
      have hg : g.onLogMessage m u t = g := by
        unfold HelpTicket.onLogMessage
        simp only [hopen, Bool.not_false, if_true]
      rw [hg]
      exact invUC_same g g last t ⟨h1, h2, h3, h4⟩ rfl rfl rfl rfl (fun n hn => hn)
    | true =>
      cases hact : g.ticket.active with
      | true =>
        have hg : g.onLogMessage m u t
            = { g with
                involvedStaff := if u.isStaff && g.ticket.userid != u.id
                                 then addToSet g.involvedStaff u.id
                                 else g.involvedStaff } := by
          unfold HelpTicket.onLogMessage
          simp only [hopen, hact, Bool.not_true, Bool.false_eq_true, if_false, if_true]
        rw [hg]
        exact invUC_same g _ last t ⟨h1, h2, h3, h4⟩ rfl rfl rfl rfl (fun n hn => hn)
      | false =>
        have hucg : unclaimedNow g = false := by
          unfold unclaimedNow; rw [hact]; simp
        have hz : g.lastUnclaimedStart = 0 := h2 hucg
        cases hbl : ((!u.isStaff || g.ticket.userid == u.id)
            && blockedMessages.contains (toID m)) with
        | true =>
          have hg : g.onLogMessage m u t
              = { g with
                  involvedStaff := if u.isStaff && g.ticket.userid != u.id
                                   then addToSet g.involvedStaff u.id
                                   else g.involvedStaff } := by
            unfold HelpTicket.onLogMessage
            simp only [hopen, hact, hbl, Bool.not_true, Bool.false_eq_true, if_false, if_true]
          rw [hg]
          exact invUC_same g _ last t ⟨h1, h2, h3, h4⟩ rfl rfl rfl rfl (fun n hn => hn)
        | false =>
          cases hreq : (!u.isStaff || g.ticket.userid == u.id) with
          | false =>
            have hg : g.onLogMessage m u t
                = { g with
                    involvedStaff := if u.isStaff && g.ticket.userid != u.id
                                     then addToSet g.involvedStaff u.id
                                     else g.involvedStaff } := by
              unfold HelpTicket.onLogMessage
              simp only [hopen, hact, hbl, hreq, Bool.not_true, Bool.not_false,
                Bool.false_eq_true, if_false, if_true, Bool.and_true, Bool.false_and]
            rw [hg]
            exact invUC_same g _ last t ⟨h1, h2, h3, h4⟩ rfl rfl rfl rfl (fun n hn => hn)
          | true =>
            have hcont : blockedMessages.contains (toID m) = false := by
              rw [hreq] at hbl
              simpa using hbl
            cases hfal : jsFalsyStr g.ticket.claimed with
            | true =>
              have hnone : g.ticket.claimed = none := (jsFalsy_none _ h3).mp hfal
              have hg : g.onLogMessage m u t
                  = { g with
                      involvedStaff := if u.isStaff && g.ticket.userid != u.id
                                       then addToSet g.involvedStaff u.id
                                       else g.involvedStaff,
                      ticket := { g.ticket with active := true, needsDelayWarning := true },
                      activationTime := t,
                      lastUnclaimedStart := t } := by
                unfold HelpTicket.onLogMessage
                simp only [hopen, hact, hbl, hreq, hfal, hcont, Bool.not_true, Bool.not_false,
                  Bool.false_eq_true, if_false, if_true, Bool.and_true, Bool.true_and]
              rw [hg]
              refine ⟨⟨?_, ?_, ?_, ?_⟩, ?_⟩
              · intro _
                show t ≠ 0
                omega
              · intro hcon
                unfold unclaimedNow at hcon
                simp only [hnone] at hcon
                simp at hcon
              · exact fun hcon => h3 hcon
              · exact h4
              · unfold finalUnclaimed
                rw [hucg, hz]
                have htne : ((t : Int) != 0) = true := bne_iff_ne.mpr (by omega)
                simp only [htne, if_true]
                simp
            | false =>
              have hg : g.onLogMessage m u t
                  = { g with
                      involvedStaff := if u.isStaff && g.ticket.userid != u.id
                                       then addToSet g.involvedStaff u.id
                                       else g.involvedStaff,
                      ticket := { g.ticket with active := true, needsDelayWarning := true },
                      activationTime := t } := by
                unfold HelpTicket.onLogMessage
                simp only [hopen, hact, hbl, hreq, hfal, hcont, Bool.not_true, Bool.not_false,
                  Bool.false_eq_true, if_false, if_true, Bool.and_true, Bool.true_and]
              rw [hg]
              have huc2 : unclaimedNow
                  ({ g with
                     involvedStaff := if u.isStaff && g.ticket.userid != u.id
                                      then addToSet g.involvedStaff u.id
                                      else g.involvedStaff,
                     ticket := { g.ticket with active := true, needsDelayWarning := true },
                     activationTime := t } : HelpTicket) = false := by
                unfold unclaimedNow
                cases hcx : g.ticket.claimed with
                | none => rw [hcx] at hfal; simp [jsFalsyStr] at hfal
                | some s => simp
              refine ⟨⟨?_, ?_, ?_, ?_⟩, ?_⟩
              · intro hcon; rw [huc2] at hcon; cases hcon
              · intro _; exact hz
              · exact h3
              · exact h4
              · unfold finalUnclaimed
                rw [hucg, hz]
                simp



theorem runAccounting (evs : List (Int × TEvent)) :
    ∀ (g : HelpTicket) (last close : Int), InvUC g → timesPosB evs = true →
    eventsWFB evs = true → noInactiveUnclaimB g evs = true →
    finalUnclaimed (runGame g evs) close
      = finalUnclaimed g last + specUnclaimedSum g last evs close := by
  induction evs with
  | nil =>
    intro g last close hInv _ _ _
    obtain ⟨h1, h2, h3, h4⟩ := hInv
    unfold runGame specUnclaimedSum finalUnclaimed
    cases hu : unclaimedNow g with
    | true =>
      have hne := h1 hu
      rw [if_pos (bne_iff_ne.mpr hne), if_pos (bne_iff_ne.mpr hne)]
      simp only [if_true]
      ring
    | false =>
      have hz := h2 hu
      rw [hz]
      simp
  | cons p rest ih =>
    intro g last close hInv hpos hwf hno
    obtain ⟨t, e⟩ := p
    unfold timesPosB at hpos
    rw [Bool.and_eq_true] at hpos
    obtain ⟨hpos1d, hposR⟩ := hpos
    have hpos1 : 0 < t := of_decide_eq_true hpos1d
    unfold eventsWFB at hwf
    rw [Bool.and_eq_true] at hwf
    obtain ⟨hwf1, hwfR⟩ := hwf
    unfold noInactiveUnclaimB at hno
    rw [Bool.and_eq_true] at hno
    obtain ⟨hno0, hnoR⟩ := hno
    have hno1 : isUnclaimEvent g e = true → g.ticket.active = true := by
      intro hev
      rw [Bool.or_eq_true] at hno0
      rcases hno0 with h | h
      · rw [hev] at h
        simp at h
      · exact h
    obtain ⟨hInv2, hacc⟩ := stepAccounting g e last t hInv hpos1 hwf1 hno1
    unfold runGame specUnclaimedSum
    rw [ih (stepGame g e t) t close hInv2 hposR hwfR hnoR, hacc]
    ring

/-- C7 amended: for every trace of join, leave and message events on a fresh
ticket in which no claim is released before activation, the unclaimedTime that
writeStats records at close equals the specification-side sum of the disjoint
active-and-unclaimed intervals between activation and close, the still-open
final segment included; in particular a ticket claimed immediately and never
unclaimed closes with zero. -/
theorem c7_unclaimed_accounting (tk : TicketState) (t0 close : Int) (r : CloseResult)
    (evs : List (Int × TEvent))
    (hcl : tk.claimed = none) (h0 : 0 < t0)
    (hpos : timesPosB evs = true) (hwf : eventsWFB evs = true)
    (hno : noInactiveUnclaimB (HelpTicket.new tk t0) evs = true) :
    ((runGame (HelpTicket.new tk t0) evs).writeStats r close).2.unclaimedTime
      = specUnclaimedSum (HelpTicket.new tk t0) t0 evs close := by
  have hucn : unclaimedNow (HelpTicket.new tk t0) = tk.active := by
    unfold unclaimedNow
    show (tk.active && tk.claimed.isNone) = tk.active
    rw [hcl]
    simp
  have hInv : InvUC (HelpTicket.new tk t0) := by
    refine ⟨?_, ?_, ?_, ?_⟩
    · intro hu
      rw [hucn] at hu
      show (if tk.active then t0 else (0 : Int)) ≠ 0
      rw [if_pos hu]
      omega
    · intro hu
      rw [hucn] at hu
      show (if tk.active then t0 else (0 : Int)) = 0
      simp [hu]
    · show tk.claimed ≠ some ""
      rw [hcl]
      exact fun h => by cases h
    · intro n hn
      cases hn
  have hrun := runAccounting evs (HelpTicket.new tk t0) t0 close hInv hpos hwf hno
  have hzero : finalUnclaimed (HelpTicket.new tk t0) t0 = 0 := by
    unfold finalUnclaimed
    show (if ((if tk.active then t0 else (0 : Int)) != 0) = true then
            (0 : Int) + (t0 - (if tk.active then t0 else (0 : Int)))
          else (0 : Int)) = 0
    cases ha : tk.active with
    | true => simp
    | false => simp
  have hws : ((runGame (HelpTicket.new tk t0) evs).writeStats r close).2.unclaimedTime
      = finalUnclaimed (runGame (HelpTicket.new tk t0) evs) close := rfl
  rw [hws, hrun, hzero, zero_add]


/-- C7 witness: on the concrete trace claim at 200 and unclaim at 300 of an
active ticket created at 100 and closed at 1000, the recorded unclaimed time
equals the specification sum, which is 800; a ticket claimed at creation time
and never unclaimed records zero. -/
theorem c7_witness :
    ((runGame (HelpTicket.new aliceT 100) c7wevs).writeStats (CloseResult.bool true)
        1000).2.unclaimedTime
      = specUnclaimedSum (HelpTicket.new aliceT 100) 100 c7wevs 1000 ∧
    specUnclaimedSum (HelpTicket.new aliceT 100) 100 c7wevs 1000 = 800 ∧
    ((runGame (HelpTicket.new aliceT 100)
        [(100, TEvent.join staffa [staffa])]).writeStats (CloseResult.bool true)
        500).2.unclaimedTime = 0 :=
  ⟨c7_unclaimed_accounting aliceT 100 1000 (CloseResult.bool true) c7wevs rfl (by decide)
      (by decide) (by decide) (by decide),
   by decide, by decide⟩


theorem rIDs_cons (u : User) (room : List User) : rIDs (u :: room) = u.id :: rIDs room := rfl

theorem rIDs_filter (room : List User) (x : String) :
    rIDs (room.filter (fun v => v.id != x)) = (rIDs room).filter (fun i => i != x) := by
  unfold rIDs
  induction room with
  | nil => rfl
  | cons a rest ih =>
    cases h : (a.id != x) with
    | true => simp only [List.filter, List.map_cons, h, List.map, ih]
    | false => simp only [List.filter, List.map_cons, h, List.map, ih]

theorem mem_rIDs_filter (room : List User) (x i : String) :
    i ∈ rIDs (room.filter (fun v => v.id != x)) ↔ i ∈ rIDs room ∧ i ≠ x := by
  rw [rIDs_filter, List.mem_filter, bne_iff_ne]

theorem removeFirstByID_sublist (q : List String) (i : String) :
    List.Sublist (removeFirstByID q i) q := by
  induction q with
  | nil => simp [removeFirstByID]
  | cons a rest ih =>
    unfold removeFirstByID
    by_cases h : (toID a == i) = true
    · rw [if_pos h]
      exact List.sublist_cons_self a rest
    · rw [if_neg h]
      exact List.Sublist.cons₂ a ih

theorem removeFirstByID_ids_sub (q : List String) (i x : String)
    (h : x ∈ (removeFirstByID q i).map toID) : x ∈ q.map toID :=
  ((removeFirstByID_sublist q i).map toID).mem h

theorem removeFirstByID_not_mem (q : List String) (i : String)
    (h : (q.map toID).Nodup) : i ∉ (removeFirstByID q i).map toID := by
  induction q with
  | nil => simp [removeFirstByID]
  | cons a rest ih =>
    unfold removeFirstByID
    by_cases hc : (toID a == i) = true
    · rw [if_pos hc]
      have ha : toID a = i := beq_iff_eq.mp hc
      have hn := (List.nodup_cons.mp h).1
      rw [ha] at hn
      exact hn
    · rw [if_neg hc]
      intro hmem
      rw [List.map_cons] at hmem
      rcases List.mem_cons.mp hmem with h1 | h1
      · exact absurd (beq_iff_eq.mpr h1.symm) hc
      · exact ih (List.nodup_cons.mp h).2 h1

theorem contains_false_not_mem (l : List String) (x : String)
    (h : l.contains x = false) : x ∉ l := by
  simpa using h

theorem contains_true_mem (l : List String) (x : String)
    (h : l.contains x = true) : x ∈ l := by
  simpa using h

theorem onJoin_claim_fields2 (g : HelpTicket) (u : User) (room : List User) (t : Int)
    (hopen : g.ticket.isOpen = true)
    (hns : (!u.isStaff || u.id == g.ticket.userid) = false)
    (hcl : jsFalsyStr g.ticket.claimed = true) :
    (g.onJoin u room t).ticket.claimed = some u.name ∧
    (g.onJoin u room t).claimQueue = g.claimQueue ∧
    (g.onJoin u room t).players = g.players ∧
    (g.onJoin u room t).ticket.isOpen = true := by
  unfold HelpTicket.onJoin
  simp only [hopen, hns, hcl, Bool.not_true, Bool.false_eq_true, if_false, if_true]
  refine ⟨?_, ?_, ?_, ?_⟩ <;> (repeat' split) <;> simp

theorem cinv_join (s : SysState) (u : User) (t : Int)
    (h1 : u.id = toID u.name) (h2 : u.id ≠ "") (h3 : u.name ≠ "")
    (h4 : u.id ∉ rIDs s.room) (hI : CInv s) :
    CInv ⟨s.game.onJoin u (u :: s.room) t, u :: s.room⟩ := by
  obtain ⟨r1, r2, r3, r4, r5, r6, c1, c2, c3, cc⟩ := hI
  have R1 : (rIDs (u :: s.room)).Nodup := by
    rw [rIDs_cons]
    exact List.nodup_cons.mpr ⟨h4, r1⟩
  have R2 : ∀ i ∈ rIDs (u :: s.room), i ≠ "" := by
    rw [rIDs_cons]
    intro i hi
    rcases List.mem_cons.mp hi with rfl | hi
    · exact h2
    · exact r2 i hi
  have hupr : ∀ i ∈ rIDs s.room, i ∈ rIDs (u :: s.room) := by
    rw [rIDs_cons]
    exact fun i hi => List.mem_cons_of_mem _ hi
  have huhead : u.id ∈ rIDs (u :: s.room) := by
    rw [rIDs_cons]
    exact List.mem_cons_self _ _
  cases hopen : s.game.ticket.isOpen with
  | false =>
    have hg : s.game.onJoin u (u :: s.room) t = s.game := by
      simp [HelpTicket.onJoin, hopen]
    show CInv ⟨s.game.onJoin u (u :: s.room) t, u :: s.room⟩
    rw [hg]
    exact ⟨R1, R2, fun p hp => hupr p (r3 p hp), r4, fun i hi => hupr i (r5 i hi), r6,
      fun c hc => hupr _ (c1 c hc), c2, c3, cc⟩
  | true =>
    cases hns : (!u.isStaff || u.id == s.game.ticket.userid) with
    | true =>
      have hg : s.game.onJoin u (u :: s.room) t
          = { s.game with
              emptyRoom := false,
              players := s.game.players ++ [u.id],
              ticket := { s.game.ticket with offline := false } } := by
        simp [HelpTicket.onJoin, hopen, hns]
      show CInv ⟨s.game.onJoin u (u :: s.room) t, u :: s.room⟩
      rw [hg]
      refine ⟨R1, R2, ?_, r4, fun i hi => hupr i (r5 i hi), ?_,
        fun c hc => hupr _ (c1 c hc), c2, ?_, ?_⟩
      · intro p hp
        rcases List.mem_append.mp hp with hp | hp
        · exact hupr p (r3 p hp)
        · rcases List.mem_singleton.mp hp with rfl
          exact huhead
      · intro i hi hmem
        rcases List.mem_append.mp hmem with hm | hm
        · exact r6 i hi hm
        · rcases List.mem_singleton.mp hm with rfl
          exact h4 (r5 _ hi)
      · intro c hc hmem
        rcases List.mem_append.mp hmem with hm | hm
        · exact c3 c hc hm
        · have hm2 := List.mem_singleton.mp hm
          exact h4 (hm2 ▸ c1 c hc)
      · intro hcl
        have hcl2 : s.game.ticket.isOpen = false := hcl
        rw [hopen] at hcl2
        cases hcl2
    | false =>
      cases hfal : jsFalsyStr s.game.ticket.claimed with
      | true =>
        obtain ⟨f1, f2, f3, f4⟩ := onJoin_claim_fields2 s.game u (u :: s.room) t hopen hns hfal
        refine ⟨R1, R2, ?_, ?_, ?_, ?_, ?_, ?_, ?_, ?_⟩
        · intro p hp
          rw [f3] at hp
          exact hupr p (r3 p hp)
        · show ((s.game.onJoin u (u :: s.room) t).claimQueue.map toID).Nodup
          rw [f2]
          exact r4
        · intro i hi
          have hi2 : i ∈ (s.game.onJoin u (u :: s.room) t).claimQueue.map toID := hi
          rw [f2] at hi2
          exact hupr i (r5 i hi2)
        · intro i hi hmem
          have hi2 : i ∈ (s.game.onJoin u (u :: s.room) t).claimQueue.map toID := hi
          rw [f2] at hi2
          rw [f3] at hmem
          exact r6 i hi2 hmem
        · intro c hc
          rw [f1] at hc
          obtain rfl : u.name = c := Option.some.inj hc
          rw [← h1]
          exact huhead
        · intro c hc
          rw [f1] at hc
          obtain rfl : u.name = c := Option.some.inj hc
          show toID u.name ∉ (s.game.onJoin u (u :: s.room) t).claimQueue.map toID
          rw [f2, ← h1]
          intro hmem
          exact h4 (r5 _ hmem)
        · intro c hc hmem
          rw [f1] at hc
          obtain rfl : u.name = c := Option.some.inj hc
          rw [f3, ← h1] at hmem
          exact h4 (r3 _ hmem)
        · intro hcl
          rw [f4] at hcl
          cases hcl
      | false =>
        have hg : s.game.onJoin u (u :: s.room) t
            = { s.game with claimQueue := s.game.claimQueue ++ [u.name] } := by
          simp [HelpTicket.onJoin, hopen, hns, hfal]
        show CInv ⟨s.game.onJoin u (u :: s.room) t, u :: s.room⟩
        rw [hg]
        refine ⟨R1, R2, fun p hp => hupr p (r3 p hp), ?_, ?_, ?_,
          fun c hc => hupr _ (c1 c hc), ?_, c3, ?_⟩
        · show ((s.game.claimQueue ++ [u.name]).map toID).Nodup
          rw [List.map_append, List.nodup_append]
          refine ⟨r4, List.nodup_singleton _, ?_⟩
          intro x hx hy
          rcases List.mem_singleton.mp hy with rfl
          rw [← h1] at hx
          exact h4 (r5 _ hx)
        · intro i hi
          have hi2 : i ∈ s.game.claimQueue.map toID ++ [toID u.name] := by
            have hi3 : i ∈ (s.game.claimQueue ++ [u.name]).map toID := hi
            rw [List.map_append] at hi3
            exact hi3
          rcases List.mem_append.mp hi2 with hi2 | hi2
          · exact hupr i (r5 i hi2)
          · rcases List.mem_singleton.mp hi2 with rfl
            rw [← h1]
            exact huhead
        · intro i hi hmem
          have hi2 : i ∈ s.game.claimQueue.map toID ++ [toID u.name] := by
            have hi3 : i ∈ (s.game.claimQueue ++ [u.name]).map toID := hi
            rw [List.map_append] at hi3
            exact hi3
          rcases List.mem_append.mp hi2 with hi2 | hi2
          · exact r6 i hi2 hmem
          · rcases List.mem_singleton.mp hi2 with rfl
            rw [← h1] at hmem
            exact h4 (r3 _ hmem)
        · intro c hc hmem
          have hm2 : toID c ∈ s.game.claimQueue.map toID ++ [toID u.name] := by
            have hm3 : toID c ∈ (s.game.claimQueue ++ [u.name]).map toID := hmem
            rw [List.map_append] at hm3
            exact hm3
          rcases List.mem_append.mp hm2 with hm | hm
          · exact c2 c hc hm
          · have hm3 := List.mem_singleton.mp hm
            rw [← h1] at hm3
            exact h4 (hm3 ▸ c1 c hc)
        · intro hcl
          have hcl2 : s.game.ticket.isOpen = false := hcl
          rw [hopen] at hcl2
          cases hcl2

theorem cinv_leave (s : SysState) (u : User) (t : Int)
    (h1 : u.id = toID u.name) (h2 : u.id ≠ "")
    (hmem : u.id ∈ rIDs s.room) (hI : CInv s) :
    CInv ⟨s.game.onLeave u none t, s.room.filter (fun v => v.id != u.id)⟩ := by
  obtain ⟨r1, r2, r3, r4, r5, r6, c1, c2, c3, cc⟩ := hI
  have R1 : (rIDs (s.room.filter (fun v => v.id != u.id))).Nodup := by
    rw [rIDs_filter]
    exact r1.filter _
  have R2 : ∀ i ∈ rIDs (s.room.filter (fun v => v.id != u.id)), i ≠ "" := by
    intro i hi
    exact r2 i ((mem_rIDs_filter s.room u.id i).mp hi).1
  have hkeep : ∀ i, i ∈ rIDs s.room → i ≠ u.id →
      i ∈ rIDs (s.room.filter (fun v => v.id != u.id)) := by
    intro i ha hb
    exact (mem_rIDs_filter s.room u.id i).mpr ⟨ha, hb⟩
  cases hp : s.game.players.contains u.id with
  | true =>
    have hpm : u.id ∈ s.game.players := contains_true_mem _ _ hp
    have hg : s.game.onLeave u none t
        = { s.game with
            players := s.game.players.filter (fun p => p != u.id),
            ticket := { s.game.ticket with offline := true } } := by
      unfold HelpTicket.onLeave
      simp only [hp, if_true]
    show CInv ⟨s.game.onLeave u none t, s.room.filter (fun v => v.id != u.id)⟩
    rw [hg]
    refine ⟨R1, R2, ?_, r4, ?_, ?_, ?_, c2, ?_, ?_⟩
    · intro p hp2
      rw [List.mem_filter] at hp2
      obtain ⟨hp2, hp3⟩ := hp2
      exact hkeep p (r3 p hp2) (bne_iff_ne.mp hp3)
    · intro i hi
      refine hkeep i (r5 i hi) ?_
      intro hcon
      exact r6 i hi (hcon ▸ hpm)
    · intro i hi hm
      rw [List.mem_filter] at hm
      exact r6 i hi hm.1
    · intro c hc
      refine hkeep _ (c1 c hc) ?_
      intro hcon
      exact c3 c hc (hcon ▸ hpm)
    · intro c hc hm
      rw [List.mem_filter] at hm
      exact c3 c hc hm.1
    · intro hcl
      have hcl2 : s.game.ticket.isOpen = false := hcl
      exact cc hcl2
  | false =>
    have hpnm : u.id ∉ s.game.players := contains_false_not_mem _ _ hp
    cases hopen : s.game.ticket.isOpen with
    | false =>
      have hg : s.game.onLeave u none t = s.game := by
        unfold HelpTicket.onLeave
        simp only [hp, hopen, Bool.false_eq_true, if_false, Bool.not_false, if_true]
      show CInv ⟨s.game.onLeave u none t, s.room.filter (fun v => v.id != u.id)⟩
      rw [hg]
      obtain ⟨ccl, ccq⟩ := cc hopen
      refine ⟨R1, R2, ?_, r4, ?_, r6, ?_, c2, c3, cc⟩
      · intro p hp2
        refine hkeep p (r3 p hp2) ?_
        intro hcon
        exact hpnm (hcon ▸ hp2)
      · intro i hi
        rw [show qIDs s.game = s.game.claimQueue.map toID from rfl, ccq] at hi
        cases hi
      · intro c hc
        rw [ccl] at hc
        cases hc
    | true =>
      cases hcm : (toIDOpt s.game.ticket.claimed == u.id) with
      | false =>
        have hg : s.game.onLeave u none t
            = { s.game with claimQueue := removeFirstByID s.game.claimQueue u.id } := by
          unfold HelpTicket.onLeave
          simp only [hp, hopen, hcm, Bool.false_eq_true, if_false, Bool.not_true]
        show CInv ⟨s.game.onLeave u none t, s.room.filter (fun v => v.id != u.id)⟩
        rw [hg]
        have hsub : ∀ x, x ∈ (removeFirstByID s.game.claimQueue u.id).map toID →
            x ∈ s.game.claimQueue.map toID :=
          fun x hx => removeFirstByID_ids_sub _ _ _ hx
        have hnm : u.id ∉ (removeFirstByID s.game.claimQueue u.id).map toID :=
          removeFirstByID_not_mem _ _ r4
        refine ⟨R1, R2, ?_, ?_, ?_, ?_, ?_, ?_, ?_, ?_⟩
        · intro p hp2
          refine hkeep p (r3 p hp2) ?_
          intro hcon
          exact hpnm (hcon ▸ hp2)
        · exact r4.sublist ((removeFirstByID_sublist _ _).map toID)
        · intro i hi
          refine hkeep i (r5 i (hsub i hi)) ?_
          intro hcon
          exact hnm (hcon ▸ hi)
        · intro i hi
          exact r6 i (hsub i hi)
        · intro c hc
          refine hkeep _ (c1 c hc) ?_
          intro hcon
          rw [show toIDOpt s.game.ticket.claimed = toID c from by rw [hc]; rfl] at hcm
          rw [hcon] at hcm
          simp at hcm
        · intro c hc hm
          exact c2 c hc (hsub _ hm)
        · exact c3
        · intro hcl
          have hcl2 : s.game.ticket.isOpen = false := hcl
          rw [hopen] at hcl2
          cases hcl2
      | true =>
        cases hc : s.game.ticket.claimed with
        | none =>
          exfalso
          rw [hc] at hcm
          simp only [toIDOpt, beq_iff_eq] at hcm
          exact h2 hcm.symm
        | some c =>
          have hcid : toID c = u.id := by
            rw [hc] at hcm
            exact beq_iff_eq.mp hcm
          cases hq : s.game.claimQueue with
          | nil =>
            have hg : s.game.onLeave u none t
                = { s.game with
                    ticket := { s.game.ticket with claimed := none },
                    lastUnclaimedStart := t } := by
              unfold HelpTicket.onLeave
              simp only [hp, hopen, hcm, hq, Bool.false_eq_true, if_false,
                Bool.not_true, if_true]
            show CInv ⟨s.game.onLeave u none t, s.room.filter (fun v => v.id != u.id)⟩
            rw [hg]
            refine ⟨R1, R2, ?_, ?_, ?_, ?_, ?_, ?_, ?_, ?_⟩
            · intro p hp2
              refine hkeep p (r3 p hp2) ?_
              intro hcon
              exact hpnm (hcon ▸ hp2)
            · show (s.game.claimQueue.map toID).Nodup
              exact r4
            · intro i hi
              have hi2 : i ∈ s.game.claimQueue.map toID := hi
              rw [hq] at hi2
              cases hi2
            · intro i hi
              have hi2 : i ∈ s.game.claimQueue.map toID := hi
              rw [hq] at hi2
              cases hi2
            · intro c2x hc2
              cases hc2
            · intro c2x hc2
              cases hc2
            · intro c2x hc2
              cases hc2
            · intro _
              constructor
              · rfl
              · show s.game.claimQueue = []
                exact hq
          | cons next rest =>
            have hnext : toID next ∈ s.game.claimQueue.map toID := by
              rw [hq, List.map_cons]
              exact List.mem_cons_self _ _
            have huq : u.id ∉ s.game.claimQueue.map toID := hcid ▸ c2 c hc
            have hne0 : next ≠ "" := by
              intro hcon
              have h0 : toID next = "" := by rw [hcon]; decide
              exact (r2 _ (r5 _ hnext)) h0
            have hnee : (next == "") = false := by simpa using hne0
            have r4x : (toID next :: rest.map toID).Nodup := by
              rw [← List.map_cons, ← hq]
              exact r4
            have hsubq : ∀ i, i ∈ rest.map toID → i ∈ s.game.claimQueue.map toID := by
              intro i hi
              rw [hq, List.map_cons]
              exact List.mem_cons_of_mem _ hi
            have hg : s.game.onLeave u none t
                = { s.game with
                    ticket := { s.game.ticket with claimed := some next },
                    claimQueue := rest } := by
              unfold HelpTicket.onLeave
              simp only [hp, hopen, hcm, hq, hnee, Bool.false_eq_true, if_false,
                Bool.not_true, if_true]
            show CInv ⟨s.game.onLeave u none t, s.room.filter (fun v => v.id != u.id)⟩
            rw [hg]
            refine ⟨R1, R2, ?_, ?_, ?_, ?_, ?_, ?_, ?_, ?_⟩
            · intro p hp2
              refine hkeep p (r3 p hp2) ?_
              intro hcon
              exact hpnm (hcon ▸ hp2)
            · exact (List.nodup_cons.mp r4x).2
            · intro i hi
              refine hkeep i (r5 i (hsubq i hi)) ?_
              intro hcon
              exact huq (hcon ▸ hsubq i hi)
            · intro i hi
              exact r6 i (hsubq i hi)
            · intro cx hcx
              obtain rfl : next = cx := Option.some.inj hcx
              refine hkeep _ (r5 _ hnext) ?_
              intro hcon
              exact huq (hcon ▸ hnext)
            · intro cx hcx
              obtain rfl : next = cx := Option.some.inj hcx
              exact (List.nodup_cons.mp r4x).1
            · intro cx hcx
              obtain rfl : next = cx := Option.some.inj hcx
              exact r6 _ hnext
            · intro hcl
              have hcl2 : s.game.ticket.isOpen = false := hcl
              rw [hopen] at hcl2
              cases hcl2

theorem cinv_reach (s : SysState) (h : HReach s) : CInv s := by
  induction h with
  | init tk now hcl =>
    refine ⟨?_, ?_, ?_, ?_, ?_, ?_, ?_, ?_, ?_, ?_⟩
    · exact List.nodup_nil
    · intro i hi; cases hi
    · intro p hp; cases hp
    · exact List.nodup_nil
    · intro i hi; cases hi
    · intro i hi; cases hi
    · intro c hc
      have hc2 : tk.claimed = some c := hc
      rw [hcl] at hc2
      cases hc2
    · intro c hc
      have hc2 : tk.claimed = some c := hc
      rw [hcl] at hc2
      cases hc2
    · intro c hc
      have hc2 : tk.claimed = some c := hc
      rw [hcl] at hc2
      cases hc2
    · intro _
      exact ⟨hcl, rfl⟩
  | step s s2 hr hs ih =>
    cases hs with
    | join u t p1 p2 p3 p4 => exact cinv_join s u t p1 p2 p3 p4 ih
    | leave u t p1 p2 p3 => exact cinv_leave s u t p1 p2 p3 ih

/-- C1: in every state reachable by join and leave events from a fresh open
ticket, the claimed field holds at most one identity, and the claim queue
never contains the identity currently held in claimed (identities compared
through toID, as the source does). -/
theorem c1_claim_queue_invariant (s : SysState) (h : HReach s) :
    (∀ c c2, s.game.ticket.claimed = some c → s.game.ticket.claimed = some c2 → c = c2) ∧
    (∀ c, s.game.ticket.claimed = some c → toID c ∉ s.game.claimQueue.map toID) := by
  have hc := cinv_reach s h
  constructor
  · intro c c2 ha hb
    rw [ha] at hb
    exact Option.some.inj hb
  · exact fun c hcc => hc.cl_nq c hcc

/-- C1 witness: after staffa joins and claims the fresh concrete ticket and
staffb joins and is queued, the claimant is staffa, the queue holds staffb,
and the toID of the claimant is not in the toID image of the queue. -/
theorem c1_witness :
    c1s2.game.ticket.claimed = some "staffa" ∧
    c1s2.game.claimQueue = ["staffb"] ∧
    toID "staffa" ∉ c1s2.game.claimQueue.map toID :=
  ⟨by decide, by decide,
   (c1_claim_queue_invariant c1s2
      (HReach.step c1s1 c1s2
        (HReach.step c1s0 c1s1
          (HReach.init aliceT 100 rfl)
          (HStep.join c1s0 staffa 200 (by decide) (by decide) (by decide) (by decide)))
        (HStep.join c1s1 staffb 300 (by decide) (by decide) (by decide) (by decide)))).2
      "staffa" (by decide)⟩

end HelpTickets
